import Mathlib

/-!
# Verification of the streaming chat-turn pipeline in src/app.py

A shallow embedding of the chat application in src/app.py.  Python chat
turns (dicts with "role" and "content" keys) become the structure `Turn`;
a transcript is a `List Turn`.  The generator function `bot` is modelled
as a pure function from the input transcript and the outcome of the
provider call (success with a structured `ChatResponse`, or an exception
carried as an error string) to a record `BotRun` holding the message list
actually delivered to the provider, the list of transcript snapshots
yielded while streaming, and the final transcript.  Environment-variable
state becomes the record `Env`; Python `str.strip()` and `s[:n]` slicing
are modelled character-exactly over `String.data`.
-/

/-- One chat message, i.e. a Python dict {"role": r, "content": c} as used
throughout src/app.py. -/
structure Turn where
  role : String
  content : String
deriving Repr, DecidableEq

/-- Python `str.strip()`: remove leading and trailing whitespace characters. -/
def pyStrip (s : String) : String :=
  ⟨((s.data.dropWhile Char.isWhitespace).reverse.dropWhile Char.isWhitespace).reverse⟩

/-- Python `s[:n]`: the first `n` characters of `s`. -/
def pySlice (s : String) (n : Nat) : String :=
  ⟨s.data.take n⟩

/-- The pydantic model `ChatResponse` (src/app.py lines 18-22): a structured
chat response.  `confidence` is a numeric score, modelled as a rational. -/
structure ChatResponse where
  message : String
  confidence : ℚ
  source : String
deriving Repr, DecidableEq

/-- Pydantic validation of a `ChatResponse` (src/app.py lines 18-22):
`message` has `min_length=1`, `confidence` defaults to 0.9 and must lie in
[0, 1] (`ge=0.0, le=1.0`), `source` defaults to "ai".  Construction fails
(pydantic raises `ValidationError`) when a constraint is violated. -/
def ChatResponse.validate (message : String) (confidence : Option ℚ)
    (source : Option String) : Option ChatResponse :=
  if 1 ≤ message.data.length ∧ 0 ≤ confidence.getD (9/10) ∧
      confidence.getD (9/10) ≤ 1 then
    some ⟨message, confidence.getD (9/10), source.getD "ai"⟩
  else
    none

/-- `user` (src/app.py lines 50-52): append the user's message to history
and clear the textbox. -/
def user (user_message : String) (history : List Turn) :
    String × List Turn :=
  ("", history ++ [⟨"user", user_message⟩])

/-- The list `conversation_history` built by `bot` (src/app.py lines 67-76)
from `history[:-1]` (all turns except the freshly appended assistant
placeholder): keep messages whose role is "user" or "assistant" and whose
content is non-empty (Python truthiness) and non-blank after `strip()`,
storing the stripped content.  Note: this list is constructed but never
passed to the provider (see `bot`). -/
def conversationHistory (msgs : List Turn) : List Turn :=
  msgs.filterMap fun msg =>
    if (msg.role = "user" ∨ msg.role = "assistant") ∧ msg.content ≠ "" then
      let content := pyStrip msg.content
      if content ≠ "" then some ⟨msg.role, content⟩ else none
    else none

/-- Modelled from the spec (sec 4.2 step 2), for comparison with the code:
the outbound message list as the specification describes it — all turns
except the placeholder, filtered to roles {user, assistant, system} with
non-empty trimmed content; if the filtered list is empty, a single default
user message "Hello" is substituted. -/
def specOutboundMessages (msgs : List Turn) : List Turn :=
  let filtered := msgs.filterMap fun msg =>
    if (msg.role = "user" ∨ msg.role = "assistant" ∨ msg.role = "system")
        ∧ pyStrip msg.content ≠ "" then
      some ⟨msg.role, pyStrip msg.content⟩
    else none
  if filtered = [] then [⟨"user", "Hello"⟩] else filtered

/-- The observable outcome of one invocation of the generator `bot`:
the message list delivered to the provider by `agent.run_sync`
(src/app.py line 84), the transcript snapshots yielded while streaming,
and the final state of the (in-place mutated) transcript. -/
structure BotRun where
  providerMessages : List Turn
  emitted : List (List Turn)
  finalHistory : List Turn
deriving Repr, DecidableEq

/-- The character-by-character emission loop of `bot` (src/app.py lines
92-96 on success, lines 102-106 on error): one yield per character of
`text`, the i-th yield showing `history` with the placeholder's content
mutated to `text[:i+1]`. -/
def streamedStates (base : List Turn) (text : String) : List (List Turn) :=
  (List.range text.data.length).map fun i =>
    base ++ [⟨"assistant", pySlice text (i + 1)⟩]

/-- `bot` (src/app.py lines 55-114).  An empty history is returned
unchanged with nothing yielded (lines 57-58).  Otherwise `user_message`
is read from `history[-1]` (line 62), an empty assistant placeholder is
appended (line 65), `conversation_history` is built from `history[:-1]`
but never used, and `agent.run_sync(user_message)` is invoked with only
the latest user message (line 84, "Use only the latest user message for
simplicity").  On success the structured response's `message` is streamed
character by character (lines 92-96); if the agent raises `e`, the inner
`except` (lines 98-106) streams `"Error from AI model: " + str(e)` the
same way — no exception escapes the generator.  The outer `except`
(lines 108-114) is unreachable for well-formed turns, since `history[-1]
["content"]` always succeeds on a `Turn`. -/
def bot (history : List Turn) (result : Except String ChatResponse) :
    BotRun :=
  match history.getLast? with
  | none => ⟨[], [], history⟩
  | some last =>
    let user_message := last.content
    match result with
    | .ok r =>
      let response_text := r.message
      { providerMessages := [⟨"user", user_message⟩]
        emitted := streamedStates history response_text
        finalHistory := history ++ [⟨"assistant", response_text⟩] }
    | .error e =>
      let error_message := "Error from AI model: " ++ e
      { providerMessages := [⟨"user", user_message⟩]
        emitted := streamedStates history error_message
        finalHistory := history ++ [⟨"assistant", error_message⟩] }

/-- The process environment restricted to the three variables the app
reads and writes; `none` means unset. -/
structure Env where
  openai_base_url : Option String
  openai_api_key : Option String
  openai_model : Option String
deriving Repr, DecidableEq

/-- `save_settings` (src/app.py lines 117-127): overwrite the three
environment variables unconditionally and return the confirmation status
string; the global agent is recreated so subsequent calls observe the new
values. -/
def save_settings (_env : Env) (base_url api_key model : String) :
    Env × String :=
  (⟨some base_url, some api_key, some model⟩,
   "Settings saved and agent updated!")

/-- The configuration reads of `create_dmr_agent` (src/app.py lines
27-29): `os.getenv` with the documented defaults; the default is used
only when the variable is unset. -/
def getConfig (env : Env) : String × String × String :=
  (env.openai_base_url.getD "http://localhost:12434/engines/v1",
   env.openai_api_key.getD "dmr",
   env.openai_model.getD "ai/gemma3")

/-- The dropdown returned by model discovery: its choices and its selected
value. -/
structure Dropdown where
  choices : List String
  value : String
deriving Repr, DecidableEq

/-- `get_available_models` (src/app.py lines 130-156), as a function of
the outcome of `client.models.list()` (success with the list of model
identifiers, or an exception carried as an error string).  On success the
catalog is filtered to names with the "ai/" prefix; if any match they
become the choices with the first selected, otherwise the full catalog is
used, selecting its first element (or "ai/gemma3" when the catalog is
empty).  On any exception the fixed fallback list is returned with
"ai/gemma3" selected — no exception escapes. -/
def get_available_models (listing : Except String (List String)) :
    Dropdown :=
  match listing with
  | .ok model_names =>
    let ai_models := model_names.filter (fun name => name.startsWith "ai/")
    match ai_models with
    | a :: rest => ⟨a :: rest, a⟩
    | [] =>
      match model_names with
      | m :: rest => ⟨m :: rest, m⟩
      | [] => ⟨[], "ai/gemma3"⟩
  | .error _ =>
    ⟨["ai/gemma3", "ai/qwen2.5", "ai/smollm2", "ai/llama3.2"], "ai/gemma3"⟩

/-- C7: Configuration set followed by get returns exactly the three values
passed, overwriting all prior values with no merging. -/
theorem save_settings_then_get (env : Env) (b k m : String) :
    getConfig (save_settings env b k m).1 = (b, k, m) := by
  rfl

/-- C8: for every non-empty input string, `user` returns a transcript one
longer than before whose last element is the user turn carrying the input,
together with the cleared (empty) input string. -/
theorem user_appends_turn (s : String) (history : List Turn)
    (hs : s ≠ "") :
    (user s history).1 = "" ∧
    (user s history).2.length = history.length + 1 ∧
    (user s history).2.getLast? = some ⟨"user", s⟩ := by
  refine ⟨rfl, by simp [user], ?_⟩
  simp [user]

/-- Witness for `user_appends_turn` at input "hi" and a one-turn history. -/
theorem user_appends_turn_witness :
    (user "hi" [⟨"user", "a"⟩]).1 = "" ∧
    (user "hi" [⟨"user", "a"⟩]).2.length = 2 ∧
    (user "hi" [⟨"user", "a"⟩]).2.getLast? = some ⟨"user", "hi"⟩ := by
  have h := user_appends_turn "hi" [⟨"user", "a"⟩] (by decide)
  exact ⟨h.1, h.2.1, h.2.2⟩

/-- C1: for every transcript ending in a user turn, one invocation of `bot`
appends exactly one assistant turn — never zero, never more than one — on
both the success path and the error path. -/
theorem bot_appends_one_assistant (hist : List Turn)
    (result : Except String ChatResponse) (last : Turn)
    (h : hist.getLast? = some last) (hrole : last.role = "user") :
    ∃ t : Turn, t.role = "assistant" ∧
      (bot hist result).finalHistory = hist ++ [t] := by
  cases result with
  | ok r => exact ⟨⟨"assistant", r.message⟩, rfl, by simp [bot, h]⟩
  | error e =>
      exact ⟨⟨"assistant", "Error from AI model: " ++ e⟩, rfl, by simp [bot, h]⟩

/-- Witness for `bot_appends_one_assistant` on a one-turn history and a
provider error. -/
theorem bot_appends_one_assistant_witness :
    ∃ t : Turn, t.role = "assistant" ∧
      (bot [⟨"user", "Hi"⟩] (.error "boom")).finalHistory =
        [⟨"user", "Hi"⟩] ++ [t] :=
  bot_appends_one_assistant [⟨"user", "Hi"⟩] (.error "boom")
    ⟨"user", "Hi"⟩ (by decide) (by decide)

/-- C4: when the provider call raises `e`, `bot` catches it, the final
assistant turn's content is `"Error from AI model: " ++ e` — a string
containing the error text — and (since `bot` is a total function of the
error) no exception propagates past the pipeline boundary. -/
theorem bot_error_surfaced (hist : List Turn) (last : Turn) (e : String)
    (h : hist.getLast? = some last) :
    (bot hist (.error e)).finalHistory.getLast? =
      some ⟨"assistant", "Error from AI model: " ++ e⟩ ∧
    ∃ pre suf : String, "Error from AI model: " ++ e = pre ++ e ++ suf := by
  refine ⟨by simp [bot, h], "Error from AI model: ", "", ?_⟩
  rw [String.append_empty]

/-- Witness for `bot_error_surfaced`: error "boom" on a one-turn history. -/
theorem bot_error_surfaced_witness :
    (bot [⟨"user", "Hi"⟩] (.error "boom")).finalHistory.getLast? =
      some ⟨"assistant", "Error from AI model: boom"⟩ ∧
    ∃ pre suf : String, "Error from AI model: boom" = pre ++ "boom" ++ suf :=
  bot_error_surfaced [⟨"user", "Hi"⟩] ⟨"user", "Hi"⟩ "boom" (by decide)

/-- C10: `bot` leaves the empty transcript unchanged and emits nothing;
on a non-empty transcript, every observed state — each yielded snapshot
and the final one — is the original transcript unchanged with exactly one
assistant turn after it, i.e. only the appended placeholder's content
varies. -/
theorem bot_frame (result : Except String ChatResponse) (hist : List Turn)
    (last : Turn) (h : hist.getLast? = some last) :
    (bot [] result).finalHistory = [] ∧
    (bot [] result).emitted = [] ∧
    (∃ c, (bot hist result).finalHistory = hist ++ [⟨"assistant", c⟩]) ∧
    (∀ s ∈ (bot hist result).emitted,
      ∃ c, s = hist ++ [⟨"assistant", c⟩]) := by
  refine ⟨by cases result <;> rfl, by cases result <;> rfl, ?_, ?_⟩
  · cases result with
    | ok r => exact ⟨r.message, by simp [bot, h]⟩
    | error e => exact ⟨"Error from AI model: " ++ e, by simp [bot, h]⟩
  · intro s hs
    cases result with
    | ok r =>
        simp only [bot, h, streamedStates, List.mem_map] at hs
        obtain ⟨i, _, rfl⟩ := hs
        exact ⟨pySlice r.message (i + 1), rfl⟩
    | error e =>
        simp only [bot, h, streamedStates, List.mem_map] at hs
        obtain ⟨i, _, rfl⟩ := hs
        exact ⟨pySlice ("Error from AI model: " ++ e) (i + 1), rfl⟩

/-- Witness for `bot_frame` on a one-turn history with a successful
structured response. -/
theorem bot_frame_witness :
    (bot [] (.ok ⟨"Hello", 9/10, "ai"⟩)).finalHistory = [] ∧
    (bot [] (.ok ⟨"Hello", 9/10, "ai"⟩)).emitted = [] ∧
    (∃ c, (bot [⟨"user", "Hi"⟩] (.ok ⟨"Hello", 9/10, "ai"⟩)).finalHistory =
      [⟨"user", "Hi"⟩] ++ [⟨"assistant", c⟩]) ∧
    (∀ s ∈ (bot [⟨"user", "Hi"⟩] (.ok ⟨"Hello", 9/10, "ai"⟩)).emitted,
      ∃ c, s = [⟨"user", "Hi"⟩] ++ [⟨"assistant", c⟩]) :=
  bot_frame (.ok ⟨"Hello", 9/10, "ai"⟩) [⟨"user", "Hi"⟩] ⟨"user", "Hi"⟩
    (by decide)

/-- C9: every `ChatResponse` accepted by validation satisfies the fixed
schema — non-empty message, confidence in [0, 1] defaulting to 9/10,
source defaulting to "ai" — and inputs violating the schema are
rejected. -/
theorem chatResponse_schema (m : String) (c : Option ℚ) (s : Option String) :
    (∀ r, ChatResponse.validate m c s = some r →
      r.message ≠ "" ∧ 0 ≤ r.confidence ∧ r.confidence ≤ 1 ∧
      (c = none → r.confidence = 9/10) ∧ (s = none → r.source = "ai")) ∧
    ((m = "" ∨ c.getD (9/10) < 0 ∨ 1 < c.getD (9/10)) →
      ChatResponse.validate m c s = none) := by
  constructor
  · intro r hr
    unfold ChatResponse.validate at hr
    split at hr
    · next hcond =>
        obtain ⟨hm, hc0, hc1⟩ := hcond
        cases hr
        refine ⟨?_, hc0, hc1, fun hc => by simp [hc], fun hs => by simp [hs]⟩
        intro hemp
        have hm' : m = "" := hemp
        rw [hm'] at hm
        exact absurd hm (by decide)
    · exact absurd hr (by simp)
  · intro hviol
    unfold ChatResponse.validate
    rw [if_neg]
    intro ⟨hm, hc0, hc1⟩
    rcases hviol with hemp | hlt | hgt
    · rw [hemp] at hm
      exact absurd hm (by decide)
    · exact absurd hc0 (not_le.mpr hlt)
    · exact absurd hc1 (not_le.mpr hgt)

/-- Witness for `chatResponse_schema`: the accepted response
("hi", defaults) satisfies the schema, and the empty message is
rejected. -/
theorem chatResponse_schema_witness :
    ("hi" ≠ "" ∧ (0 : ℚ) ≤ 9/10 ∧ (9/10 : ℚ) ≤ 1 ∧
      ((none : Option ℚ) = none → (9/10 : ℚ) = 9/10) ∧
      ((none : Option String) = none → "ai" = "ai")) ∧
    ChatResponse.validate "" none none = none := by
  constructor
  · refine (chatResponse_schema "hi" none none).1 ⟨"hi", 9/10, "ai"⟩ ?_
    unfold ChatResponse.validate
    rw [if_pos ⟨by decide, by norm_num, by norm_num⟩]
    rfl
  · exact (chatResponse_schema "" none none).2 (Or.inl rfl)

/-- C6: when the model-listing call raises, model discovery returns the
fixed fallback dropdown; on success it returns the catalog filtered to
the "ai/" namespace (or the whole catalog when nothing matches), with the
first entry selected; being a total function, it never raises past this
boundary. -/
theorem get_available_models_spec (e : String) (names : List String)
    (hne : names ≠ []) :
    get_available_models (.error e) =
      ⟨["ai/gemma3", "ai/qwen2.5", "ai/smollm2", "ai/llama3.2"],
        "ai/gemma3"⟩ ∧
    (get_available_models (.ok names)).choices =
      (if names.filter (fun n => n.startsWith "ai/") = [] then names
       else names.filter (fun n => n.startsWith "ai/")) ∧
    (get_available_models (.ok names)).value =
      (get_available_models (.ok names)).choices.headD "ai/gemma3" ∧
    (get_available_models (.ok names)).choices ≠ [] := by
  refine ⟨rfl, ?_⟩
  cases hnames : names with
  | nil => exact absurd hnames hne
  | cons m rest =>
      cases hf : (m :: rest).filter (fun n => n.startsWith "ai/") with
      | nil => simp [get_available_models, hf]
      | cons a arest => simp [get_available_models, hf]

/-- Witness for `get_available_models_spec` on the catalog
["ai/x", "other"] and the error "down". -/
theorem get_available_models_spec_witness :
    get_available_models (.error "down") =
      ⟨["ai/gemma3", "ai/qwen2.5", "ai/smollm2", "ai/llama3.2"],
        "ai/gemma3"⟩ ∧
    (get_available_models (.ok ["ai/x", "other"])).choices =
      (if ["ai/x", "other"].filter (fun n => n.startsWith "ai/") = []
       then ["ai/x", "other"]
       else ["ai/x", "other"].filter (fun n => n.startsWith "ai/")) ∧
    (get_available_models (.ok ["ai/x", "other"])).value =
      (get_available_models (.ok ["ai/x", "other"])).choices.headD
        "ai/gemma3" ∧
    (get_available_models (.ok ["ai/x", "other"])).choices ≠ [] :=
  get_available_models_spec "down" ["ai/x", "other"] (by decide)

/-- `(pySlice s n).data` is the first `n` characters of `s.data`. -/
theorem pySlice_data (s : String) (n : Nat) :
    (pySlice s n).data = s.data.take n := rfl

/-- Length of the emission sequence: one yield per character of `text`. -/
theorem streamedStates_length (base : List Turn) (text : String) :
    (streamedStates base text).length = text.data.length := by
  simp [streamedStates]

/-- The i-th yielded snapshot is `base` with the placeholder mutated to the
first `i + 1` characters of `text`. -/
theorem streamedStates_getElem? (base : List Turn) (text : String)
    (i : Nat) (h : i < text.data.length) :
    (streamedStates base text)[i]? =
      some (base ++ [⟨"assistant", pySlice text (i + 1)⟩]) := by
  unfold streamedStates
  rw [List.getElem?_map, List.getElem?_range h]
  rfl

/-- C2 counterexample: on the three-turn history
[user "A", assistant "B", user "C"], the message list delivered to the
provider is not the filtered conversation history the spec describes —
`agent.run_sync` receives only the last user message. -/
theorem bot_payload_counterexample :
    (bot [⟨"user", "A"⟩, ⟨"assistant", "B"⟩, ⟨"user", "C"⟩]
        (.ok ⟨"ok", 1, "ai"⟩)).providerMessages ≠
      specOutboundMessages
        [⟨"user", "A"⟩, ⟨"assistant", "B"⟩, ⟨"user", "C"⟩] := by
  decide

/-- C2 amended: the provider call receives only the latest user message,
as a one-element user message list; the conversation list the code builds
(which additionally excludes the system role) is left unused. -/
theorem bot_payload_is_last_message (hist : List Turn)
    (result : Except String ChatResponse) (last : Turn)
    (h : hist.getLast? = some last) :
    (bot hist result).providerMessages = [⟨"user", last.content⟩] ∧
    (∀ t : Turn, t.role = "system" → conversationHistory [t] = []) := by
  constructor
  · cases result <;> simp [bot, h]
  · intro t ht
    simp [conversationHistory, ht]

/-- Witness for `bot_payload_is_last_message` on the three-turn history. -/
theorem bot_payload_is_last_message_witness :
    (bot [⟨"user", "A"⟩, ⟨"assistant", "B"⟩, ⟨"user", "C"⟩]
        (.ok ⟨"ok", 1, "ai"⟩)).providerMessages = [⟨"user", "C"⟩] ∧
    (∀ t : Turn, t.role = "system" → conversationHistory [t] = []) :=
  bot_payload_is_last_message
    [⟨"user", "A"⟩, ⟨"assistant", "B"⟩, ⟨"user", "C"⟩]
    (.ok ⟨"ok", 1, "ai"⟩) ⟨"user", "C"⟩ (by decide)

/-- C3 counterexample: on the blank-only history [user " "], the spec
calls for the substituted payload [user "Hello"], but the provider
receives [user " "] — no default substitution exists in the code. -/
theorem bot_no_default_substitution :
    specOutboundMessages [⟨"user", " "⟩] = [⟨"user", "Hello"⟩] ∧
    (bot [⟨"user", " "⟩] (.ok ⟨"ok", 1, "ai"⟩)).providerMessages ≠
      [⟨"user", "Hello"⟩] := by
  decide

/-- C3 amended: for a blank-only history the constructed conversation
list is empty, yet no "Hello" substitution happens: the provider still
receives exactly the last message's content verbatim. -/
theorem bot_blank_history_payload (hist : List Turn)
    (result : Except String ChatResponse) (last : Turn)
    (h : hist.getLast? = some last)
    (hblank : ∀ t ∈ hist, pyStrip t.content = "") :
    conversationHistory hist = [] ∧
    (bot hist result).providerMessages = [⟨"user", last.content⟩] := by
  constructor
  · rw [conversationHistory, List.filterMap_eq_nil_iff]
    intro t ht
    rcases Decidable.em ((t.role = "user" ∨ t.role = "assistant")
        ∧ t.content ≠ "") with hc | hc
    · rw [if_pos hc, if_neg]
      simp [hblank t ht]
    · rw [if_neg hc]
  · cases result <;> simp [bot, h]

/-- Witness for `bot_blank_history_payload` on the history [user " "]. -/
theorem bot_blank_history_payload_witness :
    conversationHistory [⟨"user", " "⟩] = [] ∧
    (bot [⟨"user", " "⟩] (.ok ⟨"ok", 1, "ai"⟩)).providerMessages =
      [⟨"user", " "⟩] :=
  bot_blank_history_payload [⟨"user", " "⟩] (.ok ⟨"ok", 1, "ai"⟩)
    ⟨"user", " "⟩ (by decide) (by decide)

/-- C5 counterexample: when the provider interaction produces the message
"Hello" (the concatenation of the increments "Hel" and "lo"), the final
assistant content is indeed "Hello", but five observable states are
emitted — one per character — not two. -/
theorem bot_stream_counterexample :
    (bot [⟨"user", "Hi"⟩] (.ok ⟨"Hello", 1, "ai"⟩)).finalHistory.getLast? =
      some ⟨"assistant", "Hello"⟩ ∧
    (bot [⟨"user", "Hi"⟩] (.ok ⟨"Hello", 1, "ai"⟩)).emitted.length = 5 ∧
    ¬ (bot [⟨"user", "Hi"⟩] (.ok ⟨"Hello", 1, "ai"⟩)).emitted.length = 2 := by
  decide

/-- C5 amended: on a successful structured response the final assistant
content equals the response message, one observable state is emitted per
character of the message, and each emitted state extends the previous
one's assistant content by a strict character prefix-extension. -/
theorem bot_ok_streams (hist : List Turn) (last : Turn) (r : ChatResponse)
    (h : hist.getLast? = some last) :
    (bot hist (.ok r)).finalHistory.getLast? =
      some ⟨"assistant", r.message⟩ ∧
    (bot hist (.ok r)).emitted.length = r.message.data.length ∧
    ∀ i, i + 1 < (bot hist (.ok r)).emitted.length →
      ∃ a b : String,
        (bot hist (.ok r)).emitted[i]? =
          some (hist ++ [⟨"assistant", a⟩]) ∧
        (bot hist (.ok r)).emitted[i + 1]? =
          some (hist ++ [⟨"assistant", b⟩]) ∧
        b.data.take a.data.length = a.data ∧
        a.data.length < b.data.length := by
  have hb : bot hist (.ok r) =
      { providerMessages := [⟨"user", last.content⟩]
        emitted := streamedStates hist r.message
        finalHistory := hist ++ [⟨"assistant", r.message⟩] } := by
    simp [bot, h]
  rw [hb]
  refine ⟨by simp, streamedStates_length _ _, ?_⟩
  intro i hi
  rw [streamedStates_length] at hi
  refine ⟨pySlice r.message (i + 1), pySlice r.message (i + 2),
    streamedStates_getElem? _ _ i (by omega),
    streamedStates_getElem? _ _ (i + 1) hi, ?_, ?_⟩
  · rw [pySlice_data, pySlice_data, List.length_take,
      Nat.min_eq_left (by omega), List.take_take,
      Nat.min_eq_left (by omega)]
  · rw [pySlice_data, pySlice_data, List.length_take, List.length_take]
    omega

/-- Witness for `bot_ok_streams`: response "Hello" on a one-turn
history. -/
theorem bot_ok_streams_witness :
    (bot [⟨"user", "Hi"⟩] (.ok ⟨"Hello", 1, "ai"⟩)).finalHistory.getLast? =
      some ⟨"assistant", "Hello"⟩ ∧
    (bot [⟨"user", "Hi"⟩] (.ok ⟨"Hello", 1, "ai"⟩)).emitted.length =
      ("Hello" : String).data.length ∧
    ∀ i, i + 1 < (bot [⟨"user", "Hi"⟩]
        (.ok ⟨"Hello", 1, "ai"⟩)).emitted.length →
      ∃ a b : String,
        (bot [⟨"user", "Hi"⟩] (.ok ⟨"Hello", 1, "ai"⟩)).emitted[i]? =
          some ([⟨"user", "Hi"⟩] ++ [⟨"assistant", a⟩]) ∧
        (bot [⟨"user", "Hi"⟩] (.ok ⟨"Hello", 1, "ai"⟩)).emitted[i + 1]? =
          some ([⟨"user", "Hi"⟩] ++ [⟨"assistant", b⟩]) ∧
        b.data.take a.data.length = a.data ∧
        a.data.length < b.data.length :=
  bot_ok_streams [⟨"user", "Hi"⟩] ⟨"user", "Hi"⟩ ⟨"Hello", 1, "ai"⟩
    (by decide)
